import Mathlib

/-!
Verification of the NBA player-stats ETL script (`src/nba_stat_scraper.py`)
against its natural-language specification.

The script is a linear pipeline: HTTP fetch → HTML table extraction
(`get_nba_data`) → cleaning (`clean_data`) → database persistence.  We give a
shallow embedding of the parsing and cleaning code over an explicit model of
the parsed HTML DOM (BeautifulSoup result) and of a pandas `DataFrame`, and
prove or refute the specification's claims about it.

Modelling conventions:
* Python exceptions are `Except PyErr`.  `KeyError` models pandas label-lookup
  failures, `AttributeError` models calling a method on `None`,
  `ValueError` models the `pd.DataFrame` constructor's shape check.
* A pandas cell value is `Val`: a string, a number (modelled as `ℚ`, which is
  exact for every decimal literal the source site serves), or `NaN`.
* pandas label lookups resolve to the first matching column position; the
  frames this pipeline builds have pairwise-distinct labels, which is the
  regime the model is faithful in.
* `pd.to_numeric(errors='coerce')` is modelled by `parseDecimal`, covering the
  plain signed decimal forms (`"12"`, `"20.5"`, `".5"`, `"-3."`) that occur in
  this domain; any other text coerces to `NaN`.
-/

/-- A pandas cell value: text, numeric, or missing (`NaN`). -/
inductive Val where
  | s (text : String)
  | num (q : ℚ)
  | nan
deriving DecidableEq, Repr

/-- Python exception kinds raised by the modelled code paths. -/
inductive PyErr where
  | keyError (label : String)
  | attributeError (msg : String)
  | valueError (msg : String)
deriving DecidableEq, Repr

/-- Numeric value of a digit string (most significant first). -/
def digitsVal (l : List Char) : Nat :=
  l.foldl (fun a c => a * 10 + (c.toNat - 48)) 0

/-- Split a character list at the first dot, if any. -/
def splitAtDot : List Char → List Char × Option (List Char)
  | [] => ([], none)
  | c :: r =>
    if c = '.' then ([], some r)
    else
      let (a, b) := splitAtDot r
      (c :: a, b)

/-- Model of the decimal parsing performed by
`pd.to_numeric(..., errors='coerce')` on a cell's text: an optional sign, then
digits with at most one decimal point (at least one digit overall).  Returns
`none` exactly when pandas would coerce the cell to `NaN`. -/
def parseDecimal (s : String) : Option ℚ :=
  let cs := s.toList
  let (sgn, body) : ℚ × List Char :=
    match cs with
    | '-' :: r => (-1, r)
    | '+' :: r => (1, r)
    | r => (1, r)
  let (ip, fp?) := splitAtDot body
  match fp? with
  | none =>
    if ip ≠ [] ∧ ip.all Char.isDigit then some (sgn * digitsVal ip) else none
  | some fp =>
    if (ip ≠ [] ∨ fp ≠ []) ∧ ip.all Char.isDigit ∧ fp.all Char.isDigit then
      some (sgn * ((digitsVal ip : ℚ) + (digitsVal fp : ℚ) / ((10 : ℚ) ^ fp.length)))
    else none

/-- A pandas `DataFrame`: ordered column labels and rows of cell values.
Rows of a frame built by pandas always have exactly `columns.length` cells
(`DataFrame.Wf`). -/
structure DataFrame where
  columns : List String
  rows : List (List Val)
deriving DecidableEq, Repr

/-- Rectangularity invariant every pandas-built frame satisfies. -/
def DataFrame.Wf (df : DataFrame) : Prop :=
  ∀ r ∈ df.rows, r.length = df.columns.length

instance (df : DataFrame) : Decidable df.Wf := by
  unfold DataFrame.Wf; infer_instance

/-- Position of the first occurrence of a label (pandas label lookup). -/
def listIdx : List String → String → Option Nat
  | [], _ => none
  | a :: as, c => if a = c then some 0 else (listIdx as c).map (· + 1)

/-- `df.colIdx c` is the column position label `c` resolves to, or `none`
(pandas `KeyError`) when the label is absent. -/
def DataFrame.colIdx (df : DataFrame) (c : String) : Option Nat :=
  listIdx df.columns c

/-- The cell at row `i`, column position `j` (`NaN` outside the frame). -/
def DataFrame.getCell (df : DataFrame) (i j : Nat) : Val :=
  (df.rows.getD i []).getD j Val.nan

/-- Rewrite every cell of the column at position `j` with `f`. -/
def DataFrame.mapColAt (df : DataFrame) (j : Nat) (f : Val → Val) : DataFrame :=
  { df with rows := df.rows.map (fun r => r.set j (f (r.getD j Val.nan))) }

/-- Element action of `df['Player'].str.strip()`: strings are trimmed, any
non-string value becomes `NaN` (pandas `.str` on a non-string element). -/
def stripVal : Val → Val
  | .s t => .s t.trim
  | _ => .nan

/-- The fixed list of columns `clean_data` converts to numeric
(`numeric_columns` in the source, lines 100-104). -/
def numeric_columns : List String :=
  ["G", "GS", "MP", "FG", "FGA", "FG%", "3P", "3PA", "3P%",
   "2P", "2PA", "2P%", "eFG%", "FT", "FTA", "FT%", "ORB",
   "DRB", "TRB", "AST", "STL", "BLK", "TOV", "PF", "PTS"]

/-- Element action of `pd.to_numeric(errors='coerce')`. -/
def toNumericCoerce : Val → Val
  | .s t =>
    match parseDecimal t with
    | some q => .num q
    | none => .nan
  | .num q => .num q
  | .nan => .nan

/-- Element action of `.fillna(0)`. -/
def fillZero : Val → Val
  | .nan => .num 0
  | v => v

/-- Combined per-cell effect of the numeric-coercion step
(`to_numeric` then `fillna(0)`). -/
def numFill (v : Val) : Val := fillZero (toNumericCoerce v)

/-- The numeric value a tracked cell ends up holding: its parse if the text
parses, the number itself if already numeric, zero otherwise. -/
def valNum : Val → ℚ
  | .s t => (parseDecimal t).getD 0
  | .num q => q
  | .nan => 0

/-- Row action of `df[numeric_columns] = df[numeric_columns].apply(...)` +
`fillna(0)`: the cell under each tracked label is coerced, others are kept. -/
def coerceRow : List String → List Val → List Val
  | _, [] => []
  | [], v :: vs => v :: coerceRow [] vs
  | c :: cs, v :: vs =>
    (if numeric_columns.contains c then numFill v else v) :: coerceRow cs vs

/-- Row-filter predicate of `df = df[df['Rk'] != 'Rk']` given the resolved
position `jr` of the `'Rk'` column: keep the row unless that cell is the
literal string `"Rk"` (a `NaN` or numeric cell compares unequal, so is kept,
exactly as in pandas). -/
def rkKeep (jr : Nat) (r : List Val) : Bool :=
  !(decide (r.getD jr Val.nan = Val.s "Rk"))

/-- `df['Player'] = df['Player'].str.strip()` once the label resolves. -/
def stripFrame (df : DataFrame) : DataFrame :=
  match df.colIdx "Player" with
  | some j => df.mapColAt j stripVal
  | none => df

/-- `df = df[df['Rk'] != 'Rk']` once the label resolves. -/
def filterFrame (df : DataFrame) : DataFrame :=
  match df.colIdx "Rk" with
  | some jr => { df with rows := df.rows.filter (rkKeep jr) }
  | none => df

/-- The numeric-coercion step applied to every tracked column. -/
def coerceFrame (df : DataFrame) : DataFrame :=
  { df with rows := df.rows.map (coerceRow df.columns) }

/-- The static source-header → canonical-name dictionary passed to
`df.rename(columns={...})` in `clean_data` (source lines 113-144). -/
def renamePairs : List (String × String) :=
  [("Rk", "Rank"), ("Player", "Player_Name"), ("Age", "Player_Age"),
   ("Tm", "Team_Name"), ("Pos", "Position"), ("G", "Games_Played"),
   ("GS", "Games_Started"), ("MP", "Minutes_Played"), ("FG", "Field_Goals_Made"),
   ("FGA", "Field_Goals_Attempted"), ("FG%", "Field_Goal_Percentage"),
   ("3P", "Three_Pointers_Made"), ("3PA", "Three_Pointers_Attempted"),
   ("3P%", "Three_Point_Percentage"), ("2P", "Two_Pointers_Made"),
   ("2PA", "Two_Pointers_Attempted"), ("2P%", "Two_Point_Percentage"),
   ("eFG%", "Effective_Field_Goal_Percentage"), ("FT", "Free_Throws_Made"),
   ("FTA", "Free_Throws_Attempted"), ("FT%", "Free_Throw_Percentage"),
   ("ORB", "Offensive_Rebounds"), ("DRB", "Defensive_Rebounds"),
   ("TRB", "Total_Rebounds"), ("AST", "Assists"), ("STL", "Steals"),
   ("BLK", "Blocks"), ("TOV", "Turnovers"), ("PF", "Personal_Fouls"),
   ("PTS", "Points_Per_Game")]

/-- The label action of `df.rename`: a header found in the dictionary maps to
its canonical name, any other header passes through unchanged. -/
def renameFn (c : String) : String :=
  ((renamePairs.find? (fun p => p.1 = c)).map Prod.snd).getD c

/-- `df.rename(columns={...})`: renames labels, leaves every cell alone. -/
def clean_step_rename (df : DataFrame) : DataFrame :=
  { df with columns := df.columns.map renameFn }

/-- `df['Player'] = df['Player'].str.strip()` — raises `KeyError` when the
`'Player'` label is absent. -/
def clean_step_strip (df : DataFrame) : Except PyErr DataFrame :=
  match df.colIdx "Player" with
  | some _ => .ok (stripFrame df)
  | none => .error (.keyError "Player")

/-- `df = df[df['Rk'] != 'Rk']` — raises `KeyError` when `'Rk'` is absent. -/
def clean_step_filter (df : DataFrame) : Except PyErr DataFrame :=
  match df.colIdx "Rk" with
  | some _ => .ok (filterFrame df)
  | none => .error (.keyError "Rk")

/-- `df[numeric_columns] = df[numeric_columns].apply(pd.to_numeric,
errors='coerce')` then `.fillna(0)`.  Selecting `df[numeric_columns]` raises
`KeyError` naming a missing label when any tracked column is absent from the
frame (pandas "not in index"). -/
def clean_step_numeric (df : DataFrame) : Except PyErr DataFrame :=
  match numeric_columns.find? (fun c => !(df.columns.contains c)) with
  | some c => .error (.keyError c)
  | none => .ok (coerceFrame df)

/-- Embedding of `clean_data` (source lines 81-147): strip the player names,
drop repeated header rows, coerce the tracked columns to numeric with zero
fill, then rename to canonical labels.  A Python exception escaping any step
aborts the function. -/
def clean_data (df : DataFrame) : Except PyErr DataFrame :=
  match clean_step_strip df with
  | .error e => .error e
  | .ok d1 =>
    match clean_step_filter d1 with
    | .error e => .error e
    | .ok d2 =>
      match clean_step_numeric d2 with
      | .error e => .error e
      | .ok d3 => .ok (clean_step_rename d3)

/-! ## HTML model and `get_nba_data`

`BeautifulSoup(page_source, 'html.parser')` is modelled by the parsed DOM
restricted to what the scraper inspects: the document's `<tr>` elements in
document order (`soup.find('tr')` returns the head of that list) and the
optional `<tbody>` section with its rows.  Each row is a list of cells, each
cell a `<th>` or `<td>` with its text content. -/

/-- Cell kind in an HTML table row. -/
inductive CellTag where
  | th
  | td
deriving DecidableEq, Repr

/-- An HTML table cell: its tag and its text content. -/
structure HtmlCell where
  tag : CellTag
  text : String
deriving DecidableEq, Repr

/-- An HTML `<tr>` element: its cells in document order. -/
structure HtmlRow where
  cells : List HtmlCell
deriving DecidableEq, Repr

/-- The parsed document, restricted to what `get_nba_data` inspects. -/
structure Soup where
  allRows : List HtmlRow
  tbody : Option (List HtmlRow)
deriving DecidableEq, Repr

/-- An HTTP response: status code and (parsed) body. -/
structure Response where
  status : Nat
  soup : Soup
deriving DecidableEq, Repr

/-- `row.find('th')`: the first header cell of the row, if any. -/
def HtmlRow.findTh (r : HtmlRow) : Option HtmlCell :=
  r.cells.find? (fun c => c.tag = CellTag.th)

/-- `row.find_all('td')`: all ordinary cells of the row, in order. -/
def HtmlRow.tds (r : HtmlRow) : List HtmlCell :=
  r.cells.filter (fun c => c.tag = CellTag.td)

/-- Header list read from the first `<tr>`:
`[col.text for col in nba_table_header.find_all('th')]`. -/
def headersOf (r : HtmlRow) : List String :=
  (r.cells.filter (fun c => c.tag = CellTag.th)).map HtmlCell.text

/-- One body row's raw fields (source lines 67-75): the first `<th>`'s text —
the empty string when the row has none — followed by the `<td>` texts. -/
def rowData (r : HtmlRow) : List String :=
  (match r.findTh with
   | some c => c.text
   | none => "") :: (r.tds.map HtmlCell.text)

/-- `pd.DataFrame(data, columns=headers)`: ragged rows are padded with `NaN`
to the data's width; a width different from `len(headers)` raises
`ValueError` (unless the data is empty). -/
def mkDataFrame (data : List (List String)) (headers : List String) :
    Except PyErr DataFrame :=
  let width := (data.map List.length).foldl max 0
  if data.isEmpty then
    .ok { columns := headers, rows := [] }
  else if headers.length = width then
    .ok { columns := headers,
          rows := data.map (fun r =>
            r.map Val.s ++ List.replicate (width - r.length) Val.nan) }
  else
    .error (.valueError "columns passed do not match data width")

/-- The parsing half of `get_nba_data` (source lines 56-79), applied to an
already-fetched page.  `soup.find('tr')` yielding `None` makes the subsequent
`.find_all('th')` raise `AttributeError`; likewise `soup.find('tbody')`
yielding `None` makes `.find_all('tr')` raise. -/
def parse_soup (s : Soup) : Except PyErr DataFrame :=
  match s.allRows.head? with
  | none => .error (.attributeError "NoneType object has no attribute find_all")
  | some headerTr =>
    let headers := headersOf headerTr
    match s.tbody with
    | none => .error (.attributeError "NoneType object has no attribute find_all")
    | some body => mkDataFrame (body.map rowData) headers

/-- Embedding of `get_nba_data` (source lines 40-79): a non-200 status is
logged and returns `None` (`.ok none`); otherwise the page is parsed, any
exception propagating to the caller. -/
def get_nba_data (resp : Response) : Except PyErr (Option DataFrame) :=
  if resp.status ≠ 200 then .ok none
  else
    match parse_soup resp.soup with
    | .error e => .error e
    | .ok df => .ok (some df)

/-- Outcome of one run of `main`, recording how far the pipeline got and in
particular whether `save_to_database` was ever invoked. -/
inductive RunResult where
  | fetchFailed
  | dbConnectFailed (cleaned : DataFrame)
  | persisted (cleaned : DataFrame)
deriving DecidableEq, Repr

/-- Whether the persistence stage was invoked in this run. -/
def RunResult.persistInvoked : RunResult → Bool
  | .persisted _ => true
  | _ => false

/-- Embedding of `main` (source lines 195-215).  `dbConnectOk` abstracts the
external database collaborator: `connect_to_database` catches its own
exceptions and returns `None` on failure, and `save_to_database` catches and
logs its own exceptions, so neither raises into `main`.  Exceptions from
`get_nba_data` or `clean_data` are not caught and propagate out of `main`. -/
def NbaScraper.main (resp : Response) (dbConnectOk : Bool) : Except PyErr RunResult :=
  match get_nba_data resp with
  | .error e => .error e
  | .ok none => .ok .fetchFailed
  | .ok (some df) =>
    match clean_data df with
    | .error e => .error e
    | .ok cleaned =>
      if dbConnectOk then .ok (.persisted cleaned)
      else .ok (.dbConnectFailed cleaned)

/-- The deterministic extract-and-normalize pipeline on a fixed parsed page:
`get_nba_data`'s parsing half followed by `clean_data`. -/
def run_pipeline (s : Soup) : Except PyErr DataFrame :=
  match parse_soup s with
  | .error e => .error e
  | .ok df => clean_data df

/-! ## Well-formed pages (for the extraction claim) -/

/-- Every `<th>` of the row, if any, is its first cell (the usual shape of a
sports-reference body row: one leading row-header cell, then `<td>`s). -/
def HtmlRow.onlyLeadingTh (r : HtmlRow) : Bool :=
  r.cells.tail.all (fun c => c.tag = CellTag.td)

/-- A well-formed statistics page: the document has a first `<tr>` (the
header row) and a nonempty `<tbody>`, and every body row is an optional
leading row-header `<th>` followed by `<td>` cells, its one rank field plus
`<td>` count matching the header count. -/
def wellFormed (s : Soup) : Bool :=
  match s.allRows.head?, s.tbody with
  | some htr, some body =>
    !body.isEmpty && body.all (fun r =>
      r.onlyLeadingTh && (1 + r.tds.length == (headersOf htr).length))
  | _, _ => false

/-- Modelled from the spec: the claimed shape of one RawRow — the leading
row-header cell's text (the empty string when that cell is absent) followed
by the ordinary cells' text in document order. -/
def specRowFields (r : HtmlRow) : List String :=
  (match r.cells.head? with
   | some c => if c.tag = CellTag.th then c.text else ""
   | none => "") :: (r.tds.map HtmlCell.text)

/-! ## Concrete frames and responses used to settle the claims -/

/-- A frame whose table lacks every tracked numeric column (the source page
renamed or dropped them), but still has `'Rk'` and `'Player'`. -/
def dfMissingTracked : DataFrame :=
  { columns := ["Rk", "Player"],
    rows := [[Val.s "1", Val.s " A "]] }

/-- A frame containing the identity and rank columns (and `'Age'`), with
well-formed cells, but missing the tracked numeric columns. -/
def dfPlayerRkOnly : DataFrame :=
  { columns := ["Rk", "Player", "Age"],
    rows := [[Val.s "1", Val.s "B", Val.s "25"]] }

/-- A frame carrying every column `clean_data` touches. -/
def dfFull : DataFrame :=
  { columns := "Rk" :: "Player" :: numeric_columns,
    rows := [Val.s "1" :: Val.s " J. Doe " :: List.replicate 25 (Val.s "3.5")] }

/-- A 200 response whose page has no `<tr>` element at all. -/
def respNoHeaderRow : Response :=
  { status := 200, soup := { allRows := [], tbody := some [] } }

/-- A 200 response whose page has a header row but no `<tbody>` section. -/
def respNoTbody : Response :=
  { status := 200,
    soup := { allRows := [{ cells := [{ tag := CellTag.th, text := "Rk" }] }],
              tbody := none } }

/-- A failed fetch: HTTP 404 for the stats page. -/
def respNotFound : Response :=
  { status := 404, soup := { allRows := [], tbody := none } }

/-- A concrete header row with two header cells. -/
def htrC2 : HtmlRow :=
  { cells := [{ tag := CellTag.th, text := "Rk" },
              { tag := CellTag.th, text := "Player" }] }

/-- A concrete body row: a leading row-header cell and one ordinary cell. -/
def rowC2 : HtmlRow :=
  { cells := [{ tag := CellTag.th, text := "1" },
              { tag := CellTag.td, text := "A" }] }

/-- A concrete well-formed page built from `htrC2` and `rowC2`. -/
def soupC2 : Soup :=
  { allRows := [htrC2, rowC2], tbody := some [rowC2] }

/-- A concrete full-schema frame whose first tracked cell (`'G'`) is the
empty string, exercising the zero-coercion path. -/
def dfC5 : DataFrame :=
  { columns := "Rk" :: "Player" :: numeric_columns,
    rows := [Val.s "1" :: Val.s "X" :: List.replicate 25 (Val.s "")] }

/-- A concrete full-schema frame containing a repeated-header body row. -/
def dfC6 : DataFrame :=
  { columns := "Rk" :: "Player" :: numeric_columns,
    rows := [Val.s "1" :: Val.s "A" :: List.replicate 25 (Val.s "2"),
             Val.s "Rk" :: Val.s "Player" :: numeric_columns.map Val.s] }

/-- A concrete full-schema frame with an untracked pass-through `'Age'`
column. -/
def dfC9 : DataFrame :=
  { columns := "Rk" :: "Player" :: "Age" :: numeric_columns,
    rows := [Val.s "1" :: Val.s " B " :: Val.s "25" :: List.replicate 25 (Val.s "4")] }


/-! ## Basic lemmas about the embedding -/

theorem listIdx_eq_none_iff (l : List String) (c : String) :
    listIdx l c = none ↔ c ∉ l := by
  induction l with
  | nil => simp [listIdx]
  | cons a as ih =>
    by_cases h : a = c
    · subst h; simp [listIdx]
    · simp [listIdx, h, Option.map_eq_none', ih, Ne.symm h]

theorem listIdx_isSome_iff (l : List String) (c : String) :
    (listIdx l c).isSome ↔ c ∈ l := by
  rw [Option.isSome_iff_ne_none, ne_eq, listIdx_eq_none_iff, not_not]

theorem listIdx_getD (l : List String) (c : String) (j : Nat)
    (h : listIdx l c = some j) : l.getD j "" = c := by
  induction l generalizing j with
  | nil => simp [listIdx] at h
  | cons a as ih =>
    by_cases ha : a = c
    · subst ha
      simp [listIdx] at h
      subst h; rfl
    · simp [listIdx, ha, Option.map_eq_some'] at h
      obtain ⟨j', hj', rfl⟩ := h
      simpa using ih j' hj'

theorem listIdx_lt (l : List String) (c : String) (j : Nat)
    (h : listIdx l c = some j) : j < l.length := by
  induction l generalizing j with
  | nil => simp [listIdx] at h
  | cons a as ih =>
    by_cases ha : a = c
    · subst ha
      simp [listIdx] at h
      subst h; simp
    · simp [listIdx, ha, Option.map_eq_some'] at h
      obtain ⟨j', hj', rfl⟩ := h
      have := ih j' hj'
      simp; omega

theorem getD_map {α β : Type} (f : α → β) (l : List α) (i : Nat)
    (d₁ : β) (d₂ : α) (h : i < l.length) :
    (l.map f).getD i d₁ = f (l.getD i d₂) := by
  induction l generalizing i with
  | nil => simp at h
  | cons a as ih =>
    cases i with
    | zero => rfl
    | succ n =>
      simp only [List.map_cons, List.getD_cons_succ]
      exact ih n (by simpa using h)

theorem getD_set_ne {α : Type} (r : List α) (j j' : Nat) (v : α) (d : α)
    (h : j ≠ j') : (r.set j v).getD j' d = r.getD j' d := by
  induction r generalizing j j' with
  | nil => simp
  | cons a as ih =>
    cases j with
    | zero =>
      cases j' with
      | zero => exact absurd rfl h
      | succ m => simp [List.set]
    | succ n =>
      cases j' with
      | zero => simp [List.set]
      | succ m =>
        simp only [List.set, List.getD_cons_succ]
        exact ih n m (by omega)

theorem getD_set_self {α : Type} (r : List α) (j : Nat) (v : α) (d : α)
    (h : j < r.length) : (r.set j v).getD j d = v := by
  induction r generalizing j with
  | nil => simp at h
  | cons a as ih =>
    cases j with
    | zero => rfl
    | succ n =>
      simp only [List.set, List.getD_cons_succ]
      exact ih n (by simpa using h)

theorem coerceRow_length (cols : List String) (r : List Val) :
    (coerceRow cols r).length = r.length := by
  induction r generalizing cols with
  | nil => cases cols <;> rfl
  | cons v vs ih =>
    cases cols with
    | nil => simpa [coerceRow] using ih []
    | cons c cs => simpa [coerceRow] using ih cs

theorem coerceRow_getD (cols : List String) (r : List Val) (j : Nat)
    (h : j < r.length) :
    (coerceRow cols r).getD j Val.nan =
      (if numeric_columns.contains (cols.getD j "") then
        numFill (r.getD j Val.nan)
      else r.getD j Val.nan) := by
  induction r generalizing cols j with
  | nil => simp at h
  | cons v vs ih =>
    cases cols with
    | nil =>
      cases j with
      | zero => simp [coerceRow, numeric_columns]
      | succ n =>
        simp only [coerceRow, List.getD_cons_succ]
        exact ih [] n (by simpa using h)
    | cons c cs =>
      cases j with
      | zero => simp [coerceRow]
      | succ n =>
        simp only [coerceRow, List.getD_cons_succ]
        exact ih cs n (by simpa using h)

theorem numFill_eq_valNum (v : Val) : numFill v = Val.num (valNum v) := by
  cases v with
  | s t =>
    simp only [numFill, toNumericCoerce, valNum]
    cases h : parseDecimal t <;> simp [fillZero, h]
  | num q => rfl
  | nan => rfl

theorem stripFrame_columns (df : DataFrame) :
    (stripFrame df).columns = df.columns := by
  unfold stripFrame
  cases df.colIdx "Player" <;> rfl

theorem filterFrame_columns (df : DataFrame) :
    (filterFrame df).columns = df.columns := by
  unfold filterFrame
  cases df.colIdx "Rk" <;> rfl

theorem coerceFrame_columns (df : DataFrame) :
    (coerceFrame df).columns = df.columns := rfl

theorem coerceFrame_rows_length (df : DataFrame) :
    (coerceFrame df).rows.length = df.rows.length := by
  simp [coerceFrame]

theorem stripFrame_rows_length (df : DataFrame) :
    (stripFrame df).rows.length = df.rows.length := by
  unfold stripFrame
  cases df.colIdx "Player" <;> simp [DataFrame.mapColAt]

/-- Inversion principle for `clean_data`: it succeeds exactly when the
`'Player'` and `'Rk'` labels and all tracked numeric labels are present, and
then the output is the rename of the coercion of the filter of the strip. -/
theorem clean_data_eq_ok (df out : DataFrame) :
    clean_data df = Except.ok out ↔
      (("Player" ∈ df.columns ∧ "Rk" ∈ df.columns ∧
        ∀ c ∈ numeric_columns, c ∈ df.columns) ∧
       out = clean_step_rename (coerceFrame (filterFrame (stripFrame df)))) := by
  have hc2 : (stripFrame df).columns = df.columns := stripFrame_columns df
  have hc3 : (filterFrame (stripFrame df)).columns = df.columns := by
    rw [filterFrame_columns, hc2]
  by_cases hP : "Player" ∈ df.columns
  · obtain ⟨jp, hp⟩ := Option.isSome_iff_exists.mp
      ((listIdx_isSome_iff df.columns "Player").mpr hP)
    by_cases hR : "Rk" ∈ df.columns
    · obtain ⟨jr, hr⟩ := Option.isSome_iff_exists.mp
        ((listIdx_isSome_iff (stripFrame df).columns "Rk").mpr (hc2 ▸ hR))
      by_cases hN : ∀ c ∈ numeric_columns, c ∈ df.columns
      · have hfind : numeric_columns.find?
            (fun c => !((filterFrame (stripFrame df)).columns.contains c)) = none := by
          rw [List.find?_eq_none]
          intro c hc
          simp [List.contains, hc3, List.elem_iff, hN c hc]
        simp only [clean_data, clean_step_strip, clean_step_filter, clean_step_numeric,
          DataFrame.colIdx, hp, hr, hfind, Except.ok.injEq]
        exact ⟨fun h => ⟨⟨hP, hR, hN⟩, h.symm⟩, fun h => h.2.symm⟩
      · have hfind : (numeric_columns.find?
            (fun c => !decide (c ∈ (filterFrame (stripFrame df)).columns))).isSome := by
          rw [List.find?_isSome]
          push_neg at hN
          obtain ⟨c, hc, hcd⟩ := hN
          exact ⟨c, hc, by simp [hc3, hcd]⟩
        obtain ⟨c, hfc⟩ := Option.isSome_iff_exists.mp hfind
        simp [clean_data, clean_step_strip, clean_step_filter, clean_step_numeric,
          DataFrame.colIdx, hp, hr, hfc, hN]
    · have hrn : listIdx (stripFrame df).columns "Rk" = none :=
        (listIdx_eq_none_iff _ _).mpr (hc2 ▸ hR)
      simp [clean_data, clean_step_strip, clean_step_filter,
        DataFrame.colIdx, hp, hrn, hR]
  · have hpn : listIdx df.columns "Player" = none :=
      (listIdx_eq_none_iff _ _).mpr hP
    simp [clean_data, clean_step_strip, DataFrame.colIdx, hpn, hP]

theorem clean_step_strip_error_label (df : DataFrame) (e : PyErr)
    (h : clean_step_strip df = Except.error e) : e = PyErr.keyError "Player" := by
  unfold clean_step_strip at h
  split at h
  · exact absurd h (by simp)
  · injection h with h'
    exact h'.symm

theorem clean_step_filter_error_label (df : DataFrame) (e : PyErr)
    (h : clean_step_filter df = Except.error e) : e = PyErr.keyError "Rk" := by
  unfold clean_step_filter at h
  split at h
  · exact absurd h (by simp)
  · injection h with h'
    exact h'.symm

theorem clean_step_numeric_error_label (df : DataFrame) (e : PyErr)
    (h : clean_step_numeric df = Except.error e) :
    ∃ lbl, e = PyErr.keyError lbl := by
  unfold clean_step_numeric at h
  split at h
  · rename_i c hc
    injection h with h'
    exact ⟨c, h'.symm⟩
  · exact absurd h (by simp)

/-- No canonical output name of the rename dictionary occurs as a key. -/
theorem canonical_not_source : ∀ p ∈ renamePairs,
    renamePairs.find? (fun q => q.1 = p.2) = none := by decide

theorem renameFn_idem (c : String) : renameFn (renameFn c) = renameFn c := by
  cases h : renamePairs.find? (fun p => p.1 = c) with
  | none => simp [renameFn, h]
  | some p =>
    have hmem : p ∈ renamePairs := List.mem_of_find?_eq_some h
    have hnone := canonical_not_source p hmem
    simp [renameFn, h, hnone]

theorem rowData_eq_spec (r : HtmlRow) (h : r.onlyLeadingTh = true) :
    rowData r = specRowFields r := by
  cases hc : r.cells with
  | nil =>
    simp [rowData, specRowFields, HtmlRow.findTh, HtmlRow.tds, hc]
  | cons c cs =>
    have hall : ∀ x ∈ cs, x.tag = CellTag.td := by
      have := h
      unfold HtmlRow.onlyLeadingTh at this
      rw [hc] at this
      simpa using this
    have hnoth : cs.find? (fun x => x.tag = CellTag.th) = none := by
      rw [List.find?_eq_none]
      intro x hx
      simp [hall x hx]
    have hfil : cs.filter (fun x => x.tag = CellTag.td) = cs :=
      List.filter_eq_self.mpr (fun x hx => by simp [hall x hx])
    cases ht : c.tag with
    | th =>
      simp [rowData, specRowFields, HtmlRow.findTh, HtmlRow.tds, hc, ht, hfil]
    | td =>
      simp [rowData, specRowFields, HtmlRow.findTh, HtmlRow.tds, hc, ht, hnoth, hfil]

theorem foldl_max_const (l : List Nat) (n : Nat) (acc : Nat)
    (h : ∀ x ∈ l, x = n) (hne : l ≠ []) : l.foldl max acc = max acc n := by
  induction l generalizing acc with
  | nil => exact absurd rfl hne
  | cons x xs ih =>
    have hx : x = n := h x (by simp)
    subst hx
    rw [List.foldl_cons]
    by_cases hxs : xs = []
    · subst hxs; simp
    · rw [ih (max acc x) (fun z hz => h z (List.mem_cons_of_mem x hz)) hxs,
        Nat.max_assoc, Nat.max_self]

/-- C2 (confirmed): on every well-formed page, extraction produces one RawRow
per body row; each RawRow has exactly as many fields as the HeaderSchema, and
equals the leading row-header cell's text (empty string when absent) followed
by the ordinary cells' text in document order; the resulting `DataFrame` is
built without error, with the header schema as columns. -/
theorem extract_wellformed_shape (s : Soup) (htr : HtmlRow) (body : List HtmlRow)
    (hwf : wellFormed s = true)
    (hh : s.allRows.head? = some htr) (hb : s.tbody = some body) :
    (body.map rowData).length = body.length ∧
    (∀ r ∈ body, (rowData r).length = (headersOf htr).length ∧
      rowData r = specRowFields r) ∧
    (∃ df, parse_soup s = Except.ok df ∧
      df.columns = headersOf htr ∧
      df.rows.length = body.length ∧
      df.rows = (body.map rowData).map (List.map Val.s)) := by
  unfold wellFormed at hwf
  rw [hh, hb] at hwf
  rw [Bool.and_eq_true, List.all_eq_true] at hwf
  obtain ⟨hne', hrows⟩ := hwf
  have hne : body ≠ [] := by
    intro hcon
    rw [hcon] at hne'
    exact absurd hne' (by decide)
  have hlen : ∀ r ∈ body, (rowData r).length = (headersOf htr).length := by
    intro r hr
    have h2 := hrows r hr
    rw [Bool.and_eq_true] at h2
    have hcount : 1 + r.tds.length = (headersOf htr).length := by
      simpa using h2.2
    simp only [rowData, List.length_cons, List.length_map]
    omega
  have hspec : ∀ r ∈ body, rowData r = specRowFields r := by
    intro r hr
    have h2 := hrows r hr
    rw [Bool.and_eq_true] at h2
    exact rowData_eq_spec r h2.1
  refine ⟨List.length_map .., fun r hr => ⟨hlen r hr, hspec r hr⟩, ?_⟩
  have hwidth : ((body.map rowData).map List.length).foldl max 0 =
      (headersOf htr).length := by
    rw [foldl_max_const _ (headersOf htr).length 0 ?_ ?_]
    · exact Nat.zero_max _
    · intro x hx
      simp only [List.map_map, List.mem_map] at hx
      obtain ⟨r, hr, rfl⟩ := hx
      exact hlen r hr
    · simp [hne]
  have hnempty : (body.map rowData).isEmpty = false := by
    simp [hne]
  have hps : parse_soup s = Except.ok
      { columns := headersOf htr,
        rows := (body.map rowData).map (List.map Val.s) } := by
    unfold parse_soup
    rw [hh, hb]
    unfold mkDataFrame
    simp only [hnempty, hwidth, Bool.false_eq_true, if_false, eq_self_iff_true,
      if_true, Except.ok.injEq, DataFrame.mk.injEq, true_and]
    apply List.map_congr_left
    intro r hr
    simp only [List.mem_map] at hr
    obtain ⟨r₀, hr₀, rfl⟩ := hr
    rw [hlen r₀ hr₀]
    simp
  exact ⟨_, hps, rfl, by simp, rfl⟩

/-! ## Claims -/

/-- C1 (counterexample): the claim says `clean_data` still succeeds, with
all-zero columns, when the input table lacks tracked numeric columns.  On the
concrete table with columns `["Rk", "Player"]` — which lacks all 25 tracked
columns — `clean_data` instead raises `KeyError`: selecting
`df[numeric_columns]` with absent labels is a pandas lookup error, so an error
is raised and no all-zero columns are produced. -/
theorem clean_data_missing_tracked_raises :
    clean_data dfMissingTracked = Except.error (PyErr.keyError "G") := by rfl

/-- C1 (amended): if any tracked numeric column is absent from the input
table, `clean_data` raises an error (a `KeyError` from label lookup) rather
than succeeding with an all-zero column. -/
theorem clean_data_missing_tracked_errors (df : DataFrame)
    (h : ∃ c ∈ numeric_columns, c ∉ df.columns) :
    ∃ e, clean_data df = Except.error e := by
  obtain ⟨c, hc, hcn⟩ := h
  cases hcd : clean_data df with
  | error e => exact ⟨e, rfl⟩
  | ok out =>
    obtain ⟨⟨_, _, hN⟩, _⟩ := (clean_data_eq_ok df out).mp hcd
    exact absurd (hN c hc) hcn

/-- C1 (witness): the amended theorem applied to the concrete frame. -/
theorem clean_data_missing_tracked_errors_witness :
    ∃ e, clean_data dfMissingTracked = Except.error e :=
  clean_data_missing_tracked_errors dfMissingTracked ⟨"G", by decide, by decide⟩

/-- C3 (counterexample): the claim says that for every input containing the
`'Player'` and `'Rk'` columns no error is raised.  The concrete frame
`dfPlayerRkOnly` contains both (with perfectly ordinary cells), yet
`clean_data` raises `KeyError` because the tracked numeric columns are
absent; and the failure is a plain `KeyError`, not a dedicated
`MissingRequiredField` error. -/
theorem clean_data_player_rk_present_still_raises :
    ("Player" ∈ dfPlayerRkOnly.columns ∧ "Rk" ∈ dfPlayerRkOnly.columns) ∧
      clean_data dfPlayerRkOnly = Except.error (PyErr.keyError "G") :=
  ⟨⟨by decide, by decide⟩, by rfl⟩

/-- C3 (amended): `clean_data` succeeds exactly when the `'Player'` and
`'Rk'` columns and all 25 tracked numeric columns are present — individual
cell contents never cause an error — and every failure is an uncaught
`KeyError` from label lookup (there is no dedicated `MissingRequiredField`
error in the code). -/
theorem clean_data_error_characterization (df : DataFrame) :
    ((∃ out, clean_data df = Except.ok out) ↔
      ("Player" ∈ df.columns ∧ "Rk" ∈ df.columns ∧
        ∀ c ∈ numeric_columns, c ∈ df.columns)) ∧
    (∀ e, clean_data df = Except.error e → ∃ lbl, e = PyErr.keyError lbl) := by
  constructor
  · constructor
    · rintro ⟨out, hout⟩
      exact ((clean_data_eq_ok df out).mp hout).1
    · intro hcols
      exact ⟨_, (clean_data_eq_ok df _).mpr ⟨hcols, rfl⟩⟩
  · intro e he
    unfold clean_data at he
    cases hs : clean_step_strip df with
    | error e1 =>
      simp only [hs] at he
      injection he with h'
      subst h'
      exact ⟨"Player", clean_step_strip_error_label df e1 hs⟩
    | ok d1 =>
      simp only [hs] at he
      cases hf : clean_step_filter d1 with
      | error e2 =>
        simp only [hf] at he
        injection he with h'
        subst h'
        exact ⟨"Rk", clean_step_filter_error_label d1 e2 hf⟩
      | ok d2 =>
        simp only [hf] at he
        cases hn : clean_step_numeric d2 with
        | error e3 =>
          simp only [hn] at he
          injection he with h'
          subst h'
          exact clean_step_numeric_error_label d2 e3 hn
        | ok d3 =>
          simp only [hn] at he
          exact absurd he (by simp)

/-- C3 (witness): on a frame carrying all required columns, `clean_data`
succeeds; derived by applying the characterization theorem. -/
theorem clean_data_error_characterization_witness :
    ∃ out, clean_data dfFull = Except.ok out :=
  (clean_data_error_characterization dfFull).1.mpr (by decide)

/-- C4 (counterexample): the claim says a page with no header row ends the
run with a logged `SchemaNotFound` error and early return rather than an
unhandled exception.  On the concrete 200 response whose page has no `<tr>`
element, `main` instead ends with an uncaught `AttributeError`
(`soup.find('tr')` is `None` and `.find_all('th')` is called on it): the
exception propagates out of `main`. -/
theorem main_no_header_row_uncaught_exception :
    NbaScraper.main respNoHeaderRow true =
      Except.error (PyErr.attributeError "NoneType object has no attribute find_all") := by
  rfl

/-- C4 (amended): when the fetched page lacks a header row, or has one but
lacks a table body section, `get_nba_data` raises `AttributeError` (calling
`.find_all` on `None`), and the exception propagates uncaught out of `main`:
the run ends with an unhandled exception, not a logged early return. -/
theorem main_malformed_page_raises (resp : Response) (dbOk : Bool)
    (hst : resp.status = 200)
    (h : resp.soup.allRows.head? = none ∨
      ((resp.soup.allRows.head?).isSome ∧ resp.soup.tbody = none)) :
    NbaScraper.main resp dbOk =
      Except.error (PyErr.attributeError "NoneType object has no attribute find_all") := by
  rcases h with h | ⟨h1, h2⟩
  · simp [NbaScraper.main, get_nba_data, parse_soup, hst, h]
  · obtain ⟨tr, htr⟩ := Option.isSome_iff_exists.mp h1
    simp [NbaScraper.main, get_nba_data, parse_soup, hst, htr, h2]

/-- C4 (witness): the amended theorem applied to the concrete response whose
page has a header row but no `<tbody>`. -/
theorem main_malformed_page_raises_witness :
    NbaScraper.main respNoTbody true =
      Except.error (PyErr.attributeError "NoneType object has no attribute find_all") :=
  main_malformed_page_raises respNoTbody true rfl (Or.inr ⟨by decide, rfl⟩)

/-- C7 (confirmed): the canonical rename step is idempotent — reapplying the
static source-header → canonical-name lookup to a record set whose labels are
already canonical (the output of the rename step) changes no label, because
headers absent from the lookup pass through unchanged and no canonical output
name occurs as a lookup key. -/
theorem clean_step_rename_idempotent (df : DataFrame) :
    clean_step_rename (clean_step_rename df) = clean_step_rename df := by
  unfold clean_step_rename
  simp only [List.map_map]
  congr 1
  exact List.map_congr_left (fun c _ => renameFn_idem c)

/-- C8 (confirmed): a fetch with a non-success (non-200) HTTP status makes
`get_nba_data` return `None`; `main` logs the failure and returns
immediately, so the run is a terminal fetch failure and the persistence stage
is never invoked. -/
theorem main_non_200_no_persist (resp : Response) (dbOk : Bool)
    (h : resp.status ≠ 200) :
    NbaScraper.main resp dbOk = Except.ok RunResult.fetchFailed ∧
      ∀ r, NbaScraper.main resp dbOk = Except.ok r → r.persistInvoked = false := by
  have hm : NbaScraper.main resp dbOk = Except.ok RunResult.fetchFailed := by
    simp [NbaScraper.main, get_nba_data, h]
  refine ⟨hm, fun r hr => ?_⟩
  rw [hm] at hr
  cases hr
  rfl

/-- C8 (witness): the theorem applied to a concrete 404 response. -/
theorem main_non_200_no_persist_witness :
    NbaScraper.main respNotFound true = Except.ok RunResult.fetchFailed :=
  (main_non_200_no_persist respNotFound true (by decide)).1

/-- C10 (confirmed): the extract-and-normalize pipeline (`get_nba_data`'s
parsing of the fetched page followed by `clean_data`) is deterministic — it
is a pure function of the parsed page, so two runs on the same input HTML
produce identical results; no environment, time, or prior-run state enters
the computation. -/
theorem run_pipeline_deterministic (s₁ s₂ : Soup) (h : s₁ = s₂) :
    run_pipeline s₁ = run_pipeline s₂ := by rw [h]

/-- C10 (witness): two runs on the concrete page of `respNoTbody` agree. -/
theorem run_pipeline_deterministic_witness :
    run_pipeline respNoTbody.soup = run_pipeline respNoTbody.soup :=
  run_pipeline_deterministic respNoTbody.soup respNoTbody.soup rfl

/-- C2 (witness): the extraction-shape theorem applied to a concrete
well-formed page with two header cells and one body row. -/
theorem extract_wellformed_shape_witness :
    ([rowC2].map rowData).length = [rowC2].length ∧
    (∀ r ∈ [rowC2], (rowData r).length = (headersOf htrC2).length ∧
      rowData r = specRowFields r) ∧
    (∃ df, parse_soup soupC2 = Except.ok df ∧
      df.columns = headersOf htrC2 ∧
      df.rows.length = [rowC2].length ∧
      df.rows = ([rowC2].map rowData).map (List.map Val.s)) :=
  extract_wellformed_shape soupC2 htrC2 [rowC2] (by decide) rfl rfl

/-! ## Cell-level claims about `clean_data` -/

theorem wf_stripFrame (df : DataFrame) (h : df.Wf) : (stripFrame df).Wf := by
  unfold stripFrame
  cases df.colIdx "Player" with
  | none => exact h
  | some j =>
    intro r hr
    simp only [DataFrame.mapColAt, List.mem_map] at hr
    obtain ⟨r₀, hr₀, rfl⟩ := hr
    simpa using h r₀ hr₀

theorem wf_filterFrame (df : DataFrame) (h : df.Wf) : (filterFrame df).Wf := by
  unfold filterFrame
  cases df.colIdx "Rk" with
  | none => exact h
  | some j =>
    intro r hr
    exact h r (List.mem_of_mem_filter hr)

theorem numeric_no_empty_label : "" ∉ numeric_columns := by decide

/-- Index bound recovered from a tracked-column name at position `j`. -/
theorem tracked_idx_lt (cols : List String) (c : String) (j : Nat)
    (hj : cols.getD j "" = c) (hc : c ∈ numeric_columns) : j < cols.length := by
  by_contra hlt
  rw [List.getD_eq_default] at hj
  · exact numeric_no_empty_label (hj ▸ hc)
  · omega

/-- C5 (confirmed): in the output of a successful `clean_data`, every cell of
every tracked numeric column is numeric: its value is the parsed decimal of
the surviving row's cell when the text parses, and zero otherwise (empty or
non-numeric text, via the `NaN`-then-`fillna(0)` path) — never missing. -/
theorem clean_data_numeric_cells (df out : DataFrame) (c : String) (j i : Nat)
    (hwf : df.Wf)
    (h : clean_data df = Except.ok out)
    (hc : c ∈ numeric_columns)
    (hj : df.columns.getD j "" = c)
    (hi : i < (filterFrame (stripFrame df)).rows.length) :
    out.getCell i j =
      Val.num (valNum ((filterFrame (stripFrame df)).getCell i j)) := by
  obtain ⟨_, hout⟩ := (clean_data_eq_ok df out).mp h
  subst hout
  set mid := filterFrame (stripFrame df) with hmid
  have hmidcols : mid.columns = df.columns := by
    rw [hmid, filterFrame_columns, stripFrame_columns]
  have hmidwf : mid.Wf := wf_filterFrame _ (wf_stripFrame _ hwf)
  have hjlt : j < df.columns.length := tracked_idx_lt df.columns c j hj hc
  have hrowlen : (mid.rows.getD i []).length = df.columns.length := by
    rw [← hmidcols]
    exact hmidwf _ (by rw [List.getD_eq_getElem mid.rows [] hi]; exact List.getElem_mem hi)
  have hcell : (clean_step_rename (coerceFrame mid)).getCell i j =
      (coerceRow mid.columns (mid.rows.getD i [])).getD j Val.nan := by
    unfold DataFrame.getCell clean_step_rename coerceFrame
    simp only []
    rw [getD_map (coerceRow mid.columns) mid.rows i [] [] hi]
  rw [hcell, coerceRow_getD mid.columns _ j (by omega)]
  rw [hmidcols, hj]
  have : numeric_columns.contains c = true := List.elem_iff.mpr hc
  rw [this]
  simp only [if_true]
  rw [numFill_eq_valNum]
  rfl

/-- C5 (witness): the theorem applied at row 0, column 2 (`'G'`) of `dfC5`. -/
theorem clean_data_numeric_cells_witness :
    ∃ out, clean_data dfC5 = Except.ok out ∧
      out.getCell 0 2 =
        Val.num (valNum ((filterFrame (stripFrame dfC5)).getCell 0 2)) := by
  refine ⟨_, rfl, ?_⟩
  exact clean_data_numeric_cells dfC5 _ "G" 2 0 (by decide) rfl (by decide)
    (by decide) (by decide)

/-- C6 (confirmed): the surviving rows of `clean_data` are exactly the
(whitespace-stripped) input rows whose `'Rk'` field differs from the literal
string `"Rk"`, in their original order, each then passed through numeric
coercion; a row whose rank field equals `"Rk"` is dropped regardless of its
other cells (the keep-predicate `rkKeep` reads only the rank field). -/
theorem clean_data_drops_repeated_header_rows (df out : DataFrame) (jr : Nat)
    (h : clean_data df = Except.ok out)
    (hjr : df.colIdx "Rk" = some jr) :
    out.rows = ((stripFrame df).rows.filter (rkKeep jr)).map
        (coerceRow df.columns) ∧
      ∀ r, (rkKeep jr r = false ↔ r.getD jr Val.nan = Val.s "Rk") := by
  obtain ⟨_, hout⟩ := (clean_data_eq_ok df out).mp h
  subst hout
  constructor
  · have hstripidx : (stripFrame df).colIdx "Rk" = some jr := by
      unfold DataFrame.colIdx
      rw [stripFrame_columns]
      exact hjr
    unfold clean_step_rename coerceFrame filterFrame
    rw [hstripidx]
    simp only []
    congr 1
    rw [stripFrame_columns]
  · intro r
    simp [rkKeep]

/-- C6 (witness): the theorem applied to `dfC6`, whose second row is a
repeated header row. -/
theorem clean_data_drops_repeated_header_rows_witness :
    ∃ out, clean_data dfC6 = Except.ok out ∧
      (out.rows = ((stripFrame dfC6).rows.filter (rkKeep 0)).map
          (coerceRow dfC6.columns) ∧
        ∀ r, (rkKeep 0 r = false ↔ r.getD 0 Val.nan = Val.s "Rk")) := by
  refine ⟨_, rfl, ?_⟩
  exact clean_data_drops_repeated_header_rows dfC6 _ 0 rfl rfl

/-- C9 (confirmed, frame property): for every surviving row, each field whose
source column is neither `'Player'` nor one of the 25 tracked numeric columns
(e.g. `'Rk'`, `'Age'`, `'Tm'`, `'Pos'`) keeps its cell value exactly as in
the input row; only the column labels change, via the canonical rename. -/
theorem clean_data_frame_property (df out : DataFrame) (c : String) (j i : Nat)
    (hwf : df.Wf)
    (h : clean_data df = Except.ok out)
    (hj : df.columns.getD j "" = c)
    (hjlt : j < df.columns.length)
    (hcn : c ∉ numeric_columns)
    (hcp : c ≠ "Player")
    (hi : i < (filterFrame df).rows.length) :
    out.getCell i j = (filterFrame df).getCell i j ∧
      out.columns = df.columns.map renameFn := by
  obtain ⟨⟨hP, hR, _⟩, hout⟩ := (clean_data_eq_ok df out).mp h
  subst hout
  obtain ⟨jp, hjp⟩ := Option.isSome_iff_exists.mp
    ((listIdx_isSome_iff df.columns "Player").mpr hP)
  obtain ⟨jr, hjr⟩ := Option.isSome_iff_exists.mp
    ((listIdx_isSome_iff df.columns "Rk").mpr hR)
  have hjpname : df.columns.getD jp "" = "Player" := listIdx_getD _ _ _ hjp
  have hjp_ne_j : jp ≠ j := fun hcon => hcp (hj ▸ hcon ▸ hjpname)
  have hjr_ne_jp : jr ≠ jp := fun hcon => by
    have := listIdx_getD _ _ _ hjr
    rw [hcon, hjpname] at this
    exact absurd this (by decide)
  -- the strip step rewrites only the Player column of each row
  have hstrip : (stripFrame df).rows =
      df.rows.map (fun r => r.set jp (stripVal (r.getD jp Val.nan))) := by
    unfold stripFrame DataFrame.colIdx
    rw [hjp]
    rfl
  have hstripidx : (stripFrame df).colIdx "Rk" = some jr := by
    unfold DataFrame.colIdx
    rw [stripFrame_columns]
    exact hjr
  -- filtering commutes with the strip map since the predicates agree
  have hfiltermid : (filterFrame (stripFrame df)).rows =
      (df.rows.filter (rkKeep jr)).map
        (fun r => r.set jp (stripVal (r.getD jp Val.nan))) := by
    unfold filterFrame
    rw [hstripidx]
    simp only [hstrip]
    rw [List.filter_map]
    congr 1
    refine List.filter_congr ?_
    intro r _
    simp only [Function.comp_apply, rkKeep]
    rw [getD_set_ne r jp jr _ Val.nan (fun hcon => hjr_ne_jp hcon.symm)]
  have hfilterrows : (filterFrame df).rows = df.rows.filter (rkKeep jr) := by
    unfold filterFrame DataFrame.colIdx
    rw [hjr]
  have hi' : i < (filterFrame (stripFrame df)).rows.length := by
    rw [hfiltermid, List.length_map, ← hfilterrows]
    exact hi
  have hrow_mem : (df.rows.filter (rkKeep jr)).getD i [] ∈ df.rows := by
    have him : i < (df.rows.filter (rkKeep jr)).length := by
      rw [← hfilterrows]; exact hi
    rw [List.getD_eq_getElem _ [] him]
    exact List.mem_of_mem_filter (List.getElem_mem him)
  have hrowlen : ((df.rows.filter (rkKeep jr)).getD i []).length =
      df.columns.length := hwf _ hrow_mem
  constructor
  · unfold DataFrame.getCell clean_step_rename coerceFrame
    simp only []
    rw [getD_map (coerceRow (filterFrame (stripFrame df)).columns)
      (filterFrame (stripFrame df)).rows i [] [] hi']
    rw [hfiltermid]
    rw [getD_map _ (df.rows.filter (rkKeep jr)) i [] []
      (by rw [← hfilterrows]; exact hi)]
    rw [coerceRow_getD _ _ j (by rw [List.length_set, hrowlen]; exact hjlt)]
    rw [filterFrame_columns, stripFrame_columns, hj]
    have hnc : numeric_columns.contains c = false := by
      rcases hcc : numeric_columns.contains c with _ | _
      · rfl
      · exact absurd (List.elem_iff.mp hcc) hcn
    rw [hnc]
    simp only [Bool.false_eq_true, if_false]
    rw [getD_set_ne _ jp j _ Val.nan hjp_ne_j, hfilterrows]
  · unfold clean_step_rename
    rw [coerceFrame_columns, filterFrame_columns, stripFrame_columns]

/-- C9 (witness): the frame-property theorem applied to the `'Age'` column
(position 2) of `dfC9`. -/
theorem clean_data_frame_property_witness :
    ∃ out, clean_data dfC9 = Except.ok out ∧
      (out.getCell 0 2 = (filterFrame dfC9).getCell 0 2 ∧
        out.columns = dfC9.columns.map renameFn) := by
  refine ⟨_, rfl, ?_⟩
  exact clean_data_frame_property dfC9 _ "Age" 2 0 (by decide) rfl (by decide)
    (by decide) (by decide) (by decide) (by decide)
